import Mathlib

/-!
Shallow embedding of the wordle-fa Telegram bot (src/bot.ts): the guess
evaluator, the daily word provider with its process-wide cache, and the
per-session game state machine driven by the bot's command and message
handlers.  JavaScript strings are embedded as Lean `String`s viewed at the
character level; the handlers, which in the source mutate `ctx.session` and
the module-level `wordCache` and reply with a text, are embedded as pure
functions returning the new session, the new cache and the reply string.
-/

/-! ## String helpers (embedding JS string primitives at the char level) -/

/-- Embeds `String.prototype.trim`: drop whitespace from both ends. -/
def trimChars (l : List Char) : List Char :=
  ((l.dropWhile Char.isWhitespace).reverse.dropWhile Char.isWhitespace).reverse

/-- Embeds `text.trim()` on a JS string. -/
def trimStr (s : String) : String := String.mk (trimChars s.data)

/-- Embeds `text.toUpperCase()` character by character. -/
def toUpperStr (s : String) : String := String.mk (s.data.map Char.toUpper)

/-- Embeds JS template interpolation of a possibly-`undefined` value:
`undefined` renders as the text "undefined". -/
def optStr : Option String → String
  | some s => s
  | none => "undefined"

/-! ## Guess evaluator (src/bot.ts `evaluateGuess`, lines 134-154) -/

/-- Green square: correct letter in correct position. -/
def greenMark : Char := '🟩'

/-- Yellow square: correct letter in wrong position. -/
def yellowMark : Char := '🟨'

/-- White square: letter not in the word. -/
def whiteMark : Char := '⬜'

/-- The fixed message `evaluateGuess` returns on a length mismatch. -/
def invalidLengthMsg : String := "Invalid guess length"

/-- Embeds `evaluateGuess(guess, target)`: on a length mismatch return the
fixed error message; otherwise one mark character per position, green when
the characters align, else yellow when the guessed character occurs anywhere
in the target, else white.  The source's index loop over `guess` and
`targetChars` is rendered as a `zipWith` (the lengths are equal in this
branch). -/
def evaluateGuess (guess target : String) : String :=
  if guess.length ≠ target.length then invalidLengthMsg
  else String.mk (List.zipWith
    (fun g t => if g = t then greenMark else if g ∈ target.data then yellowMark else whiteMark)
    guess.data target.data)

/-- A string is a mark pattern when every character is one of the three
mark squares. -/
abbrev isMarkPattern (s : String) : Prop :=
  ∀ c ∈ s.data, c = greenMark ∨ c = yellowMark ∨ c = whiteMark

/-- Embeds `isValidWord(word)` (src/bot.ts lines 126-130): only the length
is checked. -/
def isValidWord (word : String) : Bool := word.length == 5

/-! ## Data model -/

/-- Embeds the `WordleSession` interface (src/bot.ts lines 14-19). -/
structure WordleSession where
  currentWord : String
  attempts : List String
  gameActive : Bool
  lastGameDate : Option String
deriving DecidableEq, Repr

/-- The session middleware's `initial` value (src/bot.ts lines 31-37). -/
def initialSession : WordleSession :=
  { currentWord := "", attempts := [], gameActive := false, lastGameDate := none }

/-- Embeds the `WordCache` interface (src/bot.ts lines 40-44).  The
`definition` is optional because the source copies `parsed.definition`
into the cache without checking it, and a JS object field may be absent. -/
structure WordCache where
  date : String
  word : String
  definition : Option String
deriving DecidableEq, Repr

/-- The JSON object parsed from the generator's reply, restricted to the
two fields the source reads: `parsed.word` and `parsed.definition`; either
may be absent. -/
structure ParsedResponse where
  word : Option String
  definition : Option String
deriving DecidableEq, Repr

/-- Outcome of one consultation of the external generator, abstracting the
awaited network call plus `JSON.parse`: either some exception was thrown
(network error or malformed JSON), or a parsed object came back. -/
inductive ApiResult where
  | failure
  | success (parsed : ParsedResponse)
deriving DecidableEq, Repr

/-- The ambient inputs of one provider call: the value of
`new Date().toISOString().split('T')[0]`, the `OPENAI_API_KEY` environment
variable, and what the generator would answer if consulted. -/
structure ProviderEnv where
  today : String
  apiKey : Option String
  api : ApiResult
deriving DecidableEq, Repr

/-! ## Word provider (src/bot.ts `getFinancialTermFromOpenAI`, lines 49-110) -/

/-- The fixed fallback returned from the `catch` block (src/bot.ts
lines 104-108). -/
def fallbackCache (today : String) : WordCache :=
  { date := today, word := "ASSET",
    definition := some "Any item of economic value owned by an individual or corporation." }

/-- The cache entry built from a validated generator response (src/bot.ts
lines 94-98): today's date, the word uppercased, and the definition as
delivered. -/
def successEntry (env : ProviderEnv) (parsed : ParsedResponse) (w : String) : WordCache :=
  { date := env.today, word := toUpperStr w, definition := parsed.definition }

/-- The cache-miss path of `getFinancialTermFromOpenAI`: check the API key,
consult the generator, validate `parsed.word`, and on success store the
uppercased word in the cache.  Every `throw` lands in the `catch` block,
which returns `fallbackCache` and leaves the cache untouched.  Returns
(result, new cache, whether the external generator was consulted). -/
def fetchFreshWord (env : ProviderEnv) (cache : Option WordCache) :
    WordCache × Option WordCache × Bool :=
  match env.apiKey with
  | none => (fallbackCache env.today, cache, false)
  | some _ =>
    match env.api with
    | .failure => (fallbackCache env.today, cache, true)
    | .success parsed =>
      match parsed.word with
      | none => (fallbackCache env.today, cache, true)
      | some w =>
        if w.length ≠ 5 then (fallbackCache env.today, cache, true)
        else
          let c := successEntry env parsed w
          (c, some c, true)

/-- Embeds `getFinancialTermFromOpenAI()`: if the cache holds an entry for
today, return it without consulting the generator; otherwise take the
cache-miss path.  Returns (result, new cache, whether the external
generator was consulted). -/
def getFinancialTermFromOpenAI (env : ProviderEnv) (cache : Option WordCache) :
    WordCache × Option WordCache × Bool :=
  match cache with
  | some c => if c.date = env.today then (c, some c, false) else fetchFreshWord env cache
  | none => fetchFreshWord env cache

/-! ## Reply texts (the literal strings of src/bot.ts) -/

/-- Reply of the /start command. -/
def startMsg : String :=
  "Welcome to WordleBot! 🎮\n\nTry to guess the 5-letter word. You have 6 attempts.\n- 🟩 means correct letter in correct position\n- 🟨 means correct letter in wrong position\n- ⬜ means the letter is not in the word\n\nUse /play to start a new game!"

/-- Rejection reply when the daily limit is hit. -/
def alreadyPlayedMsg : String :=
  "You\x27ve already played today\x27s word! Come back tomorrow for a new word."

/-- Reply when a new game starts. -/
def gameStartedMsg : String :=
  "Game started! 🎮\nI\x27m thinking of a 5-letter financial term. You have 6 attempts to guess it.\nSend your guess as a message."

/-- Rejection reply when no game is active. -/
def noActiveGameMsg : String := "No active game. Use /play to start a new game!"

/-- Rejection reply for a guess that is not 5 characters. -/
def enterFiveMsg : String := "Please enter a 5-letter word."

/-- Rejection reply of the dictionary check. -/
def invalidWordMsg : String := "Not a valid word in my dictionary. Try again!"

/-- Rejection reply of /definition before any guess. -/
def needGuessMsg : String := "Make at least one guess before asking for the definition!"

/-- Reply of the /help command. -/
def helpMsg : String :=
  "Financial WordleBot Commands:\n/start - Introduction to the bot\n/play - Start a new game\n/definition - Get a hint with the definition (after at least one guess)\n/help - Show this help message"

/-- The `response` header built for every accepted guess (src/bot.ts
line 216). -/
def attemptHeader (n : Nat) (guess evaluation : String) : String :=
  "Attempt " ++ toString n ++ "/6:\n" ++ guess ++ "\n" ++ evaluation ++ "\n\n"

/-- The congratulation appended on a win (src/bot.ts line 221). -/
def winSuffix (n : Nat) : String :=
  "🎉 Congratulations! You guessed the word in " ++ toString n ++ " attempts!"

/-- The game-over text appended on the sixth failed attempt (src/bot.ts
line 226). -/
def loseSuffix (word : String) : String :=
  "Game over! The word was " ++ word ++ ". Better luck tomorrow!"

/-- The /definition hint reply (src/bot.ts line 246). -/
def hintMsg (d : Option String) : String := "Hint - Definition: " ++ optStr d

/-! ## Handlers (pure renderings of the grammY callbacks) -/

/-- Embeds the /play handler (src/bot.ts lines 169-188): reject when the
session already played today and the dev bypass is off; otherwise fetch
today's word (threading the word cache) and reset the session.  Returns
(new session, new cache, reply). -/
def handlePlay (isDev : Bool) (env : ProviderEnv) (s : WordleSession)
    (cache : Option WordCache) : WordleSession × Option WordCache × String :=
  if s.lastGameDate = some env.today ∧ isDev = false then
    (s, cache, alreadyPlayedMsg)
  else
    let r := getFinancialTermFromOpenAI env cache
    ({ currentWord := r.1.word, attempts := [], gameActive := true,
       lastGameDate := some env.today },
     r.2.1, gameStartedMsg)

/-- Embeds `ctx.message.text.trim().toUpperCase()` (src/bot.ts line 197). -/
def normalizeGuess (text : String) : String := toUpperStr (trimStr text)

/-- Embeds the text-message handler (src/bot.ts lines 191-230).  Returns
(new session, reply).  The cache is not touched by this handler. -/
def handleMessage (s : WordleSession) (text : String) : WordleSession × String :=
  if s.gameActive = false then (s, noActiveGameMsg)
  else
    let guess := normalizeGuess text
    if guess.length ≠ 5 then (s, enterFiveMsg)
    else if isValidWord guess = false then (s, invalidWordMsg)
    else
      let attempts := s.attempts ++ [guess]
      let evaluation := evaluateGuess guess s.currentWord
      let response := attemptHeader attempts.length guess evaluation
      if guess = s.currentWord then
        ({ s with attempts := attempts, gameActive := false },
         response ++ winSuffix attempts.length)
      else if attempts.length ≥ 6 then
        ({ s with attempts := attempts, gameActive := false },
         response ++ loseSuffix s.currentWord)
      else
        ({ s with attempts := attempts }, response)

/-- Embeds the /definition handler (src/bot.ts lines 233-247): requires an
active game and at least one attempt, then fetches today's definition
through the provider (threading the cache).  The session is not mutated.
Returns (new cache, reply). -/
def handleDefinition (env : ProviderEnv) (s : WordleSession)
    (cache : Option WordCache) : Option WordCache × String :=
  if s.gameActive = false then (cache, noActiveGameMsg)
  else if s.attempts.length = 0 then (cache, needGuessMsg)
  else
    let r := getFinancialTermFromOpenAI env cache
    (r.2.1, hintMsg r.1.definition)

/-- One incoming update, dispatched to the handler the bot registers for
it. -/
inductive Event where
  | start
  | help
  | play (isDev : Bool) (env : ProviderEnv)
  | definitionCmd (env : ProviderEnv)
  | message (text : String)

/-- One step of the whole bot: session and cache before, then session,
cache and reply after.  /start and /help only reply. -/
def step (e : Event) (st : WordleSession × Option WordCache) :
    WordleSession × Option WordCache × String :=
  match e with
  | .start => (st.1, st.2, startMsg)
  | .help => (st.1, st.2, helpMsg)
  | .play d env => handlePlay d env st.1 st.2
  | .definitionCmd env =>
    let r := handleDefinition env st.1 st.2
    (st.1, r.1, r.2)
  | .message text =>
    let r := handleMessage st.1 text
    (r.1, st.2, r.2)

/-! ## Invariants -/

/-- The spec's session invariant: with a game active the current word has 5
characters and fewer than 6 attempts are recorded (so the sixth recorded
attempt forces the session inactive), and attempts never exceed 6. -/
abbrev SessionInv (s : WordleSession) : Prop :=
  (s.gameActive = true → s.currentWord.length = 5) ∧
  s.attempts.length ≤ 6 ∧
  (s.attempts.length = 6 → s.gameActive = false)

/-- Auxiliary cache invariant: any cached word has 5 characters (the
provider only stores validated words). -/
abbrev CacheInv (cache : Option WordCache) : Prop :=
  ∀ c, cache = some c → c.word.length = 5

/-! ## Claims about the guess evaluator -/

/-- Helper: on equal lengths, the evaluation is the positional zip of the
marking rule. -/
theorem evaluateGuess_data_of_length_eq (g t : String) (h : g.length = t.length) :
    (evaluateGuess g t).data = List.zipWith
      (fun a b => if a = b then greenMark else if a ∈ t.data then yellowMark else whiteMark)
      g.data t.data := by
  unfold evaluateGuess
  rw [if_neg (by simp [h])]

/-- C1: for every guess and target of equal length, `evaluateGuess` returns
one mark per input position; position i carries the green (exact) mark if
and only if the characters align there, otherwise the yellow (present) mark
when the guessed character occurs anywhere in the target, otherwise the
white (absent) mark. -/
theorem evaluateGuess_marks (g t : String) (h : g.length = t.length) :
    (evaluateGuess g t).length = g.length ∧
    ∀ i, ∀ hg : i < g.data.length, ∀ ht : i < t.data.length,
      ∀ hm : i < (evaluateGuess g t).data.length,
      ((evaluateGuess g t).data[i] = greenMark ↔ g.data[i] = t.data[i]) ∧
      (g.data[i] ≠ t.data[i] → g.data[i] ∈ t.data → (evaluateGuess g t).data[i] = yellowMark) ∧
      (g.data[i] ≠ t.data[i] → g.data[i] ∉ t.data → (evaluateGuess g t).data[i] = whiteMark) := by
  have hdl : g.data.length = t.data.length := h
  have hdata := evaluateGuess_data_of_length_eq g t h
  constructor
  · show (evaluateGuess g t).data.length = g.data.length
    rw [hdata, List.length_zipWith]
    omega
  · intro i hg ht hm
    simp only [hdata, List.getElem_zipWith]
    by_cases hc : g.data[i] = t.data[i]
    · simp [hc]
    · by_cases hmem : g.data[i] ∈ t.data
      · simp [hc, hmem]
        decide
      · simp [hc, hmem]
        decide

/-- Closed instance of `evaluateGuess_marks` at guess "ABCDE", target
"AXCDZ". -/
theorem evaluateGuess_marks_witness :
    (evaluateGuess ("ABCDE") ("AXCDZ")).length = ("ABCDE" : String).length ∧
    ∀ i, ∀ hg : i < ("ABCDE" : String).data.length,
      ∀ ht : i < ("AXCDZ" : String).data.length,
      ∀ hm : i < (evaluateGuess ("ABCDE") ("AXCDZ")).data.length,
      ((evaluateGuess ("ABCDE") ("AXCDZ")).data[i] = greenMark ↔
        ("ABCDE" : String).data[i] = ("AXCDZ" : String).data[i]) ∧
      (("ABCDE" : String).data[i] ≠ ("AXCDZ" : String).data[i] →
        ("ABCDE" : String).data[i] ∈ ("AXCDZ" : String).data →
        (evaluateGuess ("ABCDE") ("AXCDZ")).data[i] = yellowMark) ∧
      (("ABCDE" : String).data[i] ≠ ("AXCDZ" : String).data[i] →
        ("ABCDE" : String).data[i] ∉ ("AXCDZ" : String).data →
        (evaluateGuess ("ABCDE") ("AXCDZ")).data[i] = whiteMark) :=
  evaluateGuess_marks ("ABCDE") ("AXCDZ") (by decide)

/-- C3: on a length mismatch, `evaluateGuess` signals the invalid input by
returning the fixed error message, which is not a mark pattern — it never
silently produces a pattern of a different length. -/
theorem evaluateGuess_length_mismatch (g t : String) (h : g.length ≠ t.length) :
    evaluateGuess g t = invalidLengthMsg ∧ ¬ isMarkPattern (evaluateGuess g t) := by
  have he : evaluateGuess g t = invalidLengthMsg := by
    unfold evaluateGuess
    rw [if_pos h]
  refine ⟨he, ?_⟩
  rw [he]
  decide

/-- Closed instance of `evaluateGuess_length_mismatch` at guess "ABCD",
target "ASSET". -/
theorem evaluateGuess_length_mismatch_witness :
    evaluateGuess ("ABCD") ("ASSET") = invalidLengthMsg ∧
    ¬ isMarkPattern (evaluateGuess ("ABCD") ("ASSET")) :=
  evaluateGuess_length_mismatch ("ABCD") ("ASSET") (by decide)

/-! ## Claims about the word provider -/

/-- Helper: uppercasing is length-preserving. -/
theorem toUpperStr_length (s : String) : (toUpperStr s).length = s.length :=
  List.length_map s.data Char.toUpper

/-- Helper: when no cache entry matches today, the provider takes the
cache-miss path. -/
theorem getFinancialTerm_of_cache_miss (env : ProviderEnv) (cache : Option WordCache)
    (hmiss : ∀ c, cache = some c → c.date ≠ env.today) :
    getFinancialTermFromOpenAI env cache = fetchFreshWord env cache := by
  cases cache with
  | none => rfl
  | some c0 =>
    simp only [getFinancialTermFromOpenAI]
    rw [if_neg (hmiss c0 rfl)]

/-- Helper: whatever the cache-miss path returns as new cache with today's
date is also its result. -/
theorem fetchFreshWord_result (env : ProviderEnv) (cache : Option WordCache) (c : WordCache)
    (h1 : (fetchFreshWord env cache).2.1 = some c)
    (hdate : c.date = env.today)
    (hstale : ∀ c0, cache = some c0 → c0.date ≠ env.today) :
    (fetchFreshWord env cache).1 = c := by
  obtain ⟨today, apiKey, api⟩ := env
  unfold fetchFreshWord at h1 ⊢
  cases apiKey with
  | none =>
    exact absurd hdate (hstale c h1)
  | some k =>
    cases api with
    | failure =>
      exact absurd hdate (hstale c h1)
    | success parsed =>
      obtain ⟨pw, pd⟩ := parsed
      cases pw with
      | none =>
        exact absurd hdate (hstale c h1)
      | some w =>
        by_cases hl : w.length = 5
        · simp only [hl] at h1 ⊢
          simp at h1 ⊢
          exact h1
        · simp [hl] at h1
          exact absurd hdate (hstale c h1)

/-- Helper: the cache-miss path consults the generator whenever an API key
is present. -/
theorem fetchFreshWord_consults (env : ProviderEnv) (cache : Option WordCache)
    (h : env.apiKey ≠ none) : (fetchFreshWord env cache).2.2 = true := by
  obtain ⟨today, apiKey, api⟩ := env
  unfold fetchFreshWord
  cases apiKey with
  | none => exact absurd rfl h
  | some k =>
    cases api with
    | failure => rfl
    | success parsed =>
      obtain ⟨pw, pd⟩ := parsed
      cases pw with
      | none => rfl
      | some w =>
        by_cases hl : w.length = 5
        · simp [hl]
        · simp [hl]

/-- C5: once a provider call has populated the cache for today, a second
call on the same date returns exactly the cached (word, definition) pair
and does not consult the external generator. -/
theorem word_provider_idempotent (env env2 : ProviderEnv) (cache : Option WordCache)
    (c : WordCache)
    (h1 : (getFinancialTermFromOpenAI env cache).2.1 = some c)
    (hdate : c.date = env.today)
    (h2 : env2.today = env.today) :
    (getFinancialTermFromOpenAI env cache).1 = c ∧
    getFinancialTermFromOpenAI env2 (some c) = (c, some c, false) := by
  constructor
  · cases cache with
    | none => exact fetchFreshWord_result env none c h1 hdate (fun c0 hc0 => by cases hc0)
    | some c0 =>
      by_cases hd : c0.date = env.today
      · have he : getFinancialTermFromOpenAI env (some c0) = (c0, some c0, false) := by
          simp [getFinancialTermFromOpenAI, hd]
        rw [he] at h1
        rw [he]
        exact Option.some_injective _ h1
      · have he : getFinancialTermFromOpenAI env (some c0) = fetchFreshWord env (some c0) :=
          getFinancialTerm_of_cache_miss env (some c0)
            (fun c1 hc1 => by cases hc1; exact hd)
        rw [he] at h1
        rw [he]
        exact fetchFreshWord_result env (some c0) c h1 hdate
          (fun c1 hc1 => by cases hc1; exact hd)
  · simp [getFinancialTermFromOpenAI, hdate, h2]

/-- Closed instance of `word_provider_idempotent`: first call succeeds with
word "bonds", second call on the same day hits the cache. -/
theorem word_provider_idempotent_witness :
    (getFinancialTermFromOpenAI
        { today := "2025-01-01", apiKey := some ("key"), api := .success { word := some ("bonds"), definition := some ("Debt.") } }
        none).1
      = { date := "2025-01-01", word := "BONDS", definition := some ("Debt.") } ∧
    getFinancialTermFromOpenAI
        { today := "2025-01-01", apiKey := some ("key"), api := .success { word := some ("bonds"), definition := some ("Debt.") } }
        (some { date := "2025-01-01", word := "BONDS", definition := some ("Debt.") })
      = ({ date := "2025-01-01", word := "BONDS", definition := some ("Debt.") },
         some { date := "2025-01-01", word := "BONDS", definition := some ("Debt.") }, false) :=
  word_provider_idempotent
    { today := "2025-01-01", apiKey := some ("key"), api := .success { word := some ("bonds"), definition := some ("Debt.") } }
    { today := "2025-01-01", apiKey := some ("key"), api := .success { word := some ("bonds"), definition := some ("Debt.") } }
    none
    { date := "2025-01-01", word := "BONDS", definition := some ("Debt.") }
    (by decide) (by decide) (by decide)

/-- Helper: under any of the failure conditions, the cache-miss path
returns the fallback and leaves the cache untouched. -/
theorem fetchFreshWord_fallback (env : ProviderEnv) (cache : Option WordCache)
    (hfail : env.apiKey = none ∨ env.api = .failure ∨
      (∃ parsed, env.api = .success parsed ∧ ∀ w, parsed.word = some w → w.length ≠ 5)) :
    (fetchFreshWord env cache).1 = fallbackCache env.today ∧
    (fetchFreshWord env cache).2.1 = cache := by
  obtain ⟨today, apiKey, api⟩ := env
  cases apiKey with
  | none => exact ⟨rfl, rfl⟩
  | some k =>
    cases api with
    | failure => exact ⟨rfl, rfl⟩
    | success parsed =>
      obtain ⟨pw, pd⟩ := parsed
      cases pw with
      | none => exact ⟨rfl, rfl⟩
      | some w =>
        rcases hfail with hk | ha | ⟨parsed2, hps, hlen⟩
        · exact absurd hk (by simp)
        · exact absurd ha (by simp)
        · cases hps
          have hl : w.length ≠ 5 := hlen w rfl
          unfold fetchFreshWord
          simp [hl]

/-- C6: every provider failure — missing API key, a generator error, or a
response without a word of exactly 5 characters — yields the fixed fallback
pair (ASSET with its definition) as an ordinary result, with the cache left
unchanged, so that a later call with an API key consults the generator
again. -/
theorem word_provider_fallback (env : ProviderEnv) (cache : Option WordCache)
    (hmiss : ∀ c, cache = some c → c.date ≠ env.today)
    (hfail : env.apiKey = none ∨ env.api = .failure ∨
      (∃ parsed, env.api = .success parsed ∧ ∀ w, parsed.word = some w → w.length ≠ 5)) :
    (getFinancialTermFromOpenAI env cache).1 = fallbackCache env.today ∧
    (getFinancialTermFromOpenAI env cache).1.word = "ASSET" ∧
    (getFinancialTermFromOpenAI env cache).1.definition =
      some "Any item of economic value owned by an individual or corporation." ∧
    (getFinancialTermFromOpenAI env cache).2.1 = cache ∧
    (∀ env2 : ProviderEnv, env2.apiKey ≠ none →
      (∀ c, cache = some c → c.date ≠ env2.today) →
      (getFinancialTermFromOpenAI env2 (getFinancialTermFromOpenAI env cache).2.1).2.2 = true) := by
  have heq := getFinancialTerm_of_cache_miss env cache hmiss
  have hmain := fetchFreshWord_fallback env cache hfail
  rw [heq]
  refine ⟨hmain.1, ?_, ?_, hmain.2, ?_⟩
  · rw [hmain.1]
    rfl
  · rw [hmain.1]
    rfl
  · intro env2 hk2 hmiss2
    rw [hmain.2, getFinancialTerm_of_cache_miss env2 cache hmiss2]
    exact fetchFreshWord_consults env2 cache hk2

/-- Closed instance of `word_provider_fallback`: missing API key on an
empty cache. -/
theorem word_provider_fallback_witness :
    (getFinancialTermFromOpenAI { today := "2025-01-01", apiKey := none, api := .failure } none).1
      = fallbackCache "2025-01-01" ∧
    (getFinancialTermFromOpenAI { today := "2025-01-01", apiKey := none, api := .failure } none).1.word = "ASSET" ∧
    (getFinancialTermFromOpenAI { today := "2025-01-01", apiKey := none, api := .failure } none).1.definition =
      some "Any item of economic value owned by an individual or corporation." ∧
    (getFinancialTermFromOpenAI { today := "2025-01-01", apiKey := none, api := .failure } none).2.1 = none ∧
    (∀ env2 : ProviderEnv, env2.apiKey ≠ none →
      (∀ c, (none : Option WordCache) = some c → c.date ≠ env2.today) →
      (getFinancialTermFromOpenAI env2
        (getFinancialTermFromOpenAI { today := "2025-01-01", apiKey := none, api := .failure } none).2.1).2.2 = true) :=
  word_provider_fallback
    { today := "2025-01-01", apiKey := none, api := .failure } none
    (fun c hc => by cases hc) (Or.inl rfl)

/-- C7: past the cache and key checks, the provider treats the generator's
response as a failure unless it carries a word field of exactly 5
characters; a valid word is stored uppercased in the cache keyed by today's
date together with the definition, and that entry is returned. -/
theorem word_provider_validation (env : ProviderEnv) (cache : Option WordCache)
    (parsed : ParsedResponse)
    (hmiss : ∀ c, cache = some c → c.date ≠ env.today)
    (hkey : env.apiKey ≠ none)
    (hapi : env.api = .success parsed) :
    (parsed.word = none →
      getFinancialTermFromOpenAI env cache = (fallbackCache env.today, cache, true)) ∧
    (∀ w, parsed.word = some w → w.length ≠ 5 →
      getFinancialTermFromOpenAI env cache = (fallbackCache env.today, cache, true)) ∧
    (∀ w, parsed.word = some w → w.length = 5 →
      getFinancialTermFromOpenAI env cache =
        (successEntry env parsed w, some (successEntry env parsed w), true)) := by
  rw [getFinancialTerm_of_cache_miss env cache hmiss]
  obtain ⟨today, apiKey, api⟩ := env
  cases hapi
  cases apiKey with
  | none => exact absurd rfl hkey
  | some k =>
    obtain ⟨pw, pd⟩ := parsed
    refine ⟨?_, ?_, ?_⟩
    · intro hw
      cases hw
      rfl
    · intro w hw hl
      cases hw
      unfold fetchFreshWord
      simp [hl]
    · intro w hw hl
      cases hw
      unfold fetchFreshWord
      simp [hl]

/-- Closed instance of `word_provider_validation`: the response word
"bonds" is accepted, uppercased and cached. -/
theorem word_provider_validation_witness :
    getFinancialTermFromOpenAI
        { today := "2025-01-01", apiKey := some ("key"), api := .success { word := some ("bonds"), definition := some ("Debt.") } }
        none
      = (successEntry
          { today := "2025-01-01", apiKey := some ("key"), api := .success { word := some ("bonds"), definition := some ("Debt.") } }
          { word := some ("bonds"), definition := some ("Debt.") } ("bonds"),
        some (successEntry
          { today := "2025-01-01", apiKey := some ("key"), api := .success { word := some ("bonds"), definition := some ("Debt.") } }
          { word := some ("bonds"), definition := some ("Debt.") } ("bonds")),
        true) :=
  (word_provider_validation
    { today := "2025-01-01", apiKey := some ("key"), api := .success { word := some ("bonds"), definition := some ("Debt.") } }
    none
    { word := some ("bonds"), definition := some ("Debt.") }
    (fun c hc => by cases hc) (by simp) rfl).2.2 ("bonds") rfl (by decide)

/-! ## Claims about the handlers -/

/-- Helper: the message handler rejects when no game is active. -/
theorem handleMessage_inactive (s : WordleSession) (text : String)
    (h : s.gameActive = false) : handleMessage s text = (s, noActiveGameMsg) := by
  simp [handleMessage, h]

/-- Helper: the message handler rejects a guess that is not 5 characters. -/
theorem handleMessage_badlength (s : WordleSession) (text : String)
    (hactive : s.gameActive = true) (h : (normalizeGuess text).length ≠ 5) :
    handleMessage s text = (s, enterFiveMsg) := by
  simp [handleMessage, hactive, h]

/-- Helper: a correct 5-character guess wins: the session is closed and the
reply reports the pattern and the attempt count. -/
theorem handleMessage_win (s : WordleSession) (text : String)
    (hactive : s.gameActive = true) (hlen : (normalizeGuess text).length = 5)
    (hwin : normalizeGuess text = s.currentWord) :
    handleMessage s text =
      ({ s with attempts := s.attempts ++ [normalizeGuess text], gameActive := false },
       attemptHeader (s.attempts.length + 1) (normalizeGuess text)
          (evaluateGuess (normalizeGuess text) s.currentWord) ++
        winSuffix (s.attempts.length + 1)) := by
  have hclen : s.currentWord.length = 5 := by rw [← hwin]; exact hlen
  simp [handleMessage, hactive, hlen, isValidWord, hwin, hclen]

/-- Helper: a wrong 5-character guess that fills the sixth slot loses: the
session is closed and the reply reveals the word. -/
theorem handleMessage_lose (s : WordleSession) (text : String)
    (hactive : s.gameActive = true) (hlen : (normalizeGuess text).length = 5)
    (hwin : normalizeGuess text ≠ s.currentWord) (h6 : s.attempts.length + 1 ≥ 6) :
    handleMessage s text =
      ({ s with attempts := s.attempts ++ [normalizeGuess text], gameActive := false },
       attemptHeader (s.attempts.length + 1) (normalizeGuess text)
          (evaluateGuess (normalizeGuess text) s.currentWord) ++
        loseSuffix s.currentWord) := by
  simp [handleMessage, hactive, hlen, isValidWord, hwin, h6]

/-- Helper: a wrong 5-character guess before the sixth slot keeps the game
going and reports the pattern and attempt count. -/
theorem handleMessage_continue (s : WordleSession) (text : String)
    (hactive : s.gameActive = true) (hlen : (normalizeGuess text).length = 5)
    (hwin : normalizeGuess text ≠ s.currentWord) (h6 : s.attempts.length + 1 < 6) :
    handleMessage s text =
      ({ s with attempts := s.attempts ++ [normalizeGuess text] },
       attemptHeader (s.attempts.length + 1) (normalizeGuess text)
          (evaluateGuess (normalizeGuess text) s.currentWord)) := by
  have h6' : ¬ (s.attempts.length + 1 ≥ 6) := by omega
  simp [handleMessage, hactive, hlen, isValidWord, hwin, h6']

/-- C4: while `lastGameDate` equals today and the dev bypass is off, /play
replies "already played" and leaves session and cache untouched; otherwise
it sets the current word to today's word, clears the attempts, activates
the game, and stamps today as the last game date. -/
theorem play_command_spec (isDev : Bool) (env : ProviderEnv) (s : WordleSession)
    (cache : Option WordCache) :
    (s.lastGameDate = some env.today → isDev = false →
      handlePlay isDev env s cache = (s, cache, alreadyPlayedMsg)) ∧
    (¬ (s.lastGameDate = some env.today ∧ isDev = false) →
      (handlePlay isDev env s cache).1.currentWord =
          (getFinancialTermFromOpenAI env cache).1.word ∧
      (handlePlay isDev env s cache).1.attempts = [] ∧
      (handlePlay isDev env s cache).1.gameActive = true ∧
      (handlePlay isDev env s cache).1.lastGameDate = some env.today ∧
      (handlePlay isDev env s cache).2.1 = (getFinancialTermFromOpenAI env cache).2.1 ∧
      (handlePlay isDev env s cache).2.2 = gameStartedMsg) := by
  constructor
  · intro h1 h2
    unfold handlePlay
    rw [if_pos ⟨h1, h2⟩]
  · intro h
    unfold handlePlay
    rw [if_neg h]
    exact ⟨rfl, rfl, rfl, rfl, rfl, rfl⟩

/-- Closed instance of `play_command_spec`: a same-day replay is rejected
unchanged, and a first play on a fresh session starts the game. -/
theorem play_command_spec_witness :
    handlePlay false { today := "2025-01-01", apiKey := none, api := .failure }
        { currentWord := "ASSET", attempts := [], gameActive := false, lastGameDate := some ("2025-01-01") } none
      = ({ currentWord := "ASSET", attempts := [], gameActive := false, lastGameDate := some ("2025-01-01") }, none, alreadyPlayedMsg) ∧
    (handlePlay false { today := "2025-01-01", apiKey := none, api := .failure }
        initialSession none).1.gameActive = true :=
  ⟨(play_command_spec false { today := "2025-01-01", apiKey := none, api := .failure }
      { currentWord := "ASSET", attempts := [], gameActive := false, lastGameDate := some ("2025-01-01") } none).1 rfl rfl,
   ((play_command_spec false { today := "2025-01-01", apiKey := none, api := .failure }
      initialSession none).2 (by simp [initialSession])).2.2.1⟩

/-- C2: an active session receiving a 5-character guess appends it to the
attempts; a guess equal to the target ends the game as won with a success
report carrying the attempt count; otherwise, when it is the sixth recorded
attempt, the game ends as lost and the reply reveals the target word;
otherwise the session stays active and the pattern and attempt count are
reported; and once the game is over, any further message is rejected as no
active game. -/
theorem guess_message_transition (s : WordleSession) (text : String)
    (hactive : s.gameActive = true)
    (hlen : (normalizeGuess text).length = 5) :
    (handleMessage s text).1.attempts = s.attempts ++ [normalizeGuess text] ∧
    (normalizeGuess text = s.currentWord →
      (handleMessage s text).1.gameActive = false ∧
      (handleMessage s text).2 =
        attemptHeader (s.attempts.length + 1) (normalizeGuess text)
            (evaluateGuess (normalizeGuess text) s.currentWord) ++
          winSuffix (s.attempts.length + 1)) ∧
    (normalizeGuess text ≠ s.currentWord → s.attempts.length + 1 ≥ 6 →
      (handleMessage s text).1.gameActive = false ∧
      (handleMessage s text).2 =
        attemptHeader (s.attempts.length + 1) (normalizeGuess text)
            (evaluateGuess (normalizeGuess text) s.currentWord) ++
          loseSuffix s.currentWord) ∧
    (normalizeGuess text ≠ s.currentWord → s.attempts.length + 1 < 6 →
      (handleMessage s text).1.gameActive = true ∧
      (handleMessage s text).1.currentWord = s.currentWord ∧
      (handleMessage s text).2 =
        attemptHeader (s.attempts.length + 1) (normalizeGuess text)
          (evaluateGuess (normalizeGuess text) s.currentWord)) ∧
    ((handleMessage s text).1.gameActive = false →
      ∀ text2, handleMessage (handleMessage s text).1 text2 =
        ((handleMessage s text).1, noActiveGameMsg)) := by
  by_cases hwin : normalizeGuess text = s.currentWord
  · rw [handleMessage_win s text hactive hlen hwin]
    refine ⟨rfl, fun _ => ⟨rfl, rfl⟩, fun hne => absurd hwin hne,
      fun hne => absurd hwin hne, fun _ text2 => ?_⟩
    exact handleMessage_inactive _ text2 rfl
  · by_cases h6 : s.attempts.length + 1 ≥ 6
    · rw [handleMessage_lose s text hactive hlen hwin h6]
      refine ⟨rfl, fun hw => absurd hw hwin, fun _ _ => ⟨rfl, rfl⟩,
        fun _ hlt => absurd h6 (by omega), fun _ text2 => ?_⟩
      exact handleMessage_inactive _ text2 rfl
    · rw [handleMessage_continue s text hactive hlen hwin (by omega)]
      refine ⟨rfl, fun hw => absurd hw hwin, fun _ hge => absurd hge h6,
        fun _ _ => ⟨hactive, rfl, rfl⟩, fun hfalse _ => ?_⟩
      exact absurd hfalse (by simp [hactive])

/-- Closed instance of `guess_message_transition`: the active session with
word ASSET receives the winning guess "asset". -/
theorem guess_message_transition_witness :
    (handleMessage { currentWord := "ASSET", attempts := [], gameActive := true, lastGameDate := none } ("asset")).1.attempts
      = ([] : List String) ++ [normalizeGuess ("asset")] ∧
    (normalizeGuess ("asset") = "ASSET" →
      (handleMessage { currentWord := "ASSET", attempts := [], gameActive := true, lastGameDate := none } ("asset")).1.gameActive = false ∧
      (handleMessage { currentWord := "ASSET", attempts := [], gameActive := true, lastGameDate := none } ("asset")).2 =
        attemptHeader (List.length ([] : List String) + 1) (normalizeGuess ("asset"))
            (evaluateGuess (normalizeGuess ("asset")) "ASSET") ++
          winSuffix (List.length ([] : List String) + 1)) ∧
    (normalizeGuess ("asset") ≠ "ASSET" → List.length ([] : List String) + 1 ≥ 6 →
      (handleMessage { currentWord := "ASSET", attempts := [], gameActive := true, lastGameDate := none } ("asset")).1.gameActive = false ∧
      (handleMessage { currentWord := "ASSET", attempts := [], gameActive := true, lastGameDate := none } ("asset")).2 =
        attemptHeader (List.length ([] : List String) + 1) (normalizeGuess ("asset"))
            (evaluateGuess (normalizeGuess ("asset")) "ASSET") ++
          loseSuffix "ASSET") ∧
    (normalizeGuess ("asset") ≠ "ASSET" → List.length ([] : List String) + 1 < 6 →
      (handleMessage { currentWord := "ASSET", attempts := [], gameActive := true, lastGameDate := none } ("asset")).1.gameActive = true ∧
      (handleMessage { currentWord := "ASSET", attempts := [], gameActive := true, lastGameDate := none } ("asset")).1.currentWord = "ASSET" ∧
      (handleMessage { currentWord := "ASSET", attempts := [], gameActive := true, lastGameDate := none } ("asset")).2 =
        attemptHeader (List.length ([] : List String) + 1) (normalizeGuess ("asset"))
          (evaluateGuess (normalizeGuess ("asset")) "ASSET")) ∧
    ((handleMessage { currentWord := "ASSET", attempts := [], gameActive := true, lastGameDate := none } ("asset")).1.gameActive = false →
      ∀ text2, handleMessage (handleMessage { currentWord := "ASSET", attempts := [], gameActive := true, lastGameDate := none } ("asset")).1 text2 =
        ((handleMessage { currentWord := "ASSET", attempts := [], gameActive := true, lastGameDate := none } ("asset")).1, noActiveGameMsg)) :=
  guess_message_transition
    { currentWord := "ASSET", attempts := [], gameActive := true, lastGameDate := none }
    ("asset") rfl (by decide)

/-- C8: /definition is rejected with an instructional message while no game
is active or before the first attempt; with an active game, at least one
attempt, and the cache holding today's entry for the session's active word,
it replies with that cached definition. -/
theorem definition_command_spec (env : ProviderEnv) (s : WordleSession)
    (cache : Option WordCache) :
    (s.gameActive = false → handleDefinition env s cache = (cache, noActiveGameMsg)) ∧
    (s.gameActive = true → s.attempts.length = 0 →
      handleDefinition env s cache = (cache, needGuessMsg)) ∧
    (s.gameActive = true → s.attempts.length ≠ 0 →
      ∀ c, cache = some c → c.date = env.today → c.word = s.currentWord →
        handleDefinition env s cache = (some c, hintMsg c.definition)) := by
  refine ⟨?_, ?_, ?_⟩
  · intro h
    simp [handleDefinition, h]
  · intro h1 h2
    simp [handleDefinition, h1, h2]
  · intro h1 h2 c hcache hdate hword
    subst hcache
    simp [handleDefinition, h1, h2, getFinancialTermFromOpenAI, hdate]

/-- Closed instance of `definition_command_spec`: rejected at zero
attempts; after one attempt the cached definition for the active word
ASSET is returned. -/
theorem definition_command_spec_witness :
    handleDefinition { today := "2025-01-01", apiKey := none, api := .failure }
        { currentWord := "ASSET", attempts := [], gameActive := true, lastGameDate := some ("2025-01-01") }
        (some { date := "2025-01-01", word := "ASSET", definition := some ("Def.") })
      = (some { date := "2025-01-01", word := "ASSET", definition := some ("Def.") },
         needGuessMsg) ∧
    handleDefinition { today := "2025-01-01", apiKey := none, api := .failure }
        { currentWord := "ASSET", attempts := ["BONDS"], gameActive := true, lastGameDate := some ("2025-01-01") }
        (some { date := "2025-01-01", word := "ASSET", definition := some ("Def.") })
      = (some { date := "2025-01-01", word := "ASSET", definition := some ("Def.") },
         hintMsg (some ("Def."))) :=
  ⟨(definition_command_spec { today := "2025-01-01", apiKey := none, api := .failure }
      { currentWord := "ASSET", attempts := [], gameActive := true, lastGameDate := some ("2025-01-01") }
      (some { date := "2025-01-01", word := "ASSET", definition := some ("Def.") })).2.1
      rfl rfl,
   (definition_command_spec { today := "2025-01-01", apiKey := none, api := .failure }
      { currentWord := "ASSET", attempts := ["BONDS"], gameActive := true, lastGameDate := some ("2025-01-01") }
      (some { date := "2025-01-01", word := "ASSET", definition := some ("Def.") })).2.2
      rfl (by decide) { date := "2025-01-01", word := "ASSET", definition := some ("Def.") }
      rfl rfl rfl⟩

/-- Helper: the fallback word ASSET has 5 characters. -/
theorem fallbackCache_word_length (today : String) :
    (fallbackCache today).word.length = 5 := by
  have h : ("ASSET" : String).length = 5 := by decide
  exact h

/-- Helper: the cache-miss path returns a 5-character word and preserves
the cache invariant. -/
theorem fetchFreshWord_word_length (env : ProviderEnv) (cache : Option WordCache)
    (hc : CacheInv cache) :
    (fetchFreshWord env cache).1.word.length = 5 ∧
    CacheInv (fetchFreshWord env cache).2.1 := by
  obtain ⟨today, apiKey, api⟩ := env
  cases apiKey with
  | none => exact ⟨fallbackCache_word_length today, hc⟩
  | some k =>
    cases api with
    | failure => exact ⟨fallbackCache_word_length today, hc⟩
    | success parsed =>
      obtain ⟨pw, pd⟩ := parsed
      cases pw with
      | none => exact ⟨fallbackCache_word_length today, hc⟩
      | some w =>
        by_cases hl : w.length = 5
        · unfold fetchFreshWord
          simp [hl, successEntry, toUpperStr_length, CacheInv]
        · unfold fetchFreshWord
          simp [hl]
          exact ⟨fallbackCache_word_length today, hc⟩

/-- Helper: the provider always hands back a 5-character word and keeps
every cached word at 5 characters. -/
theorem getFinancialTerm_word_length (env : ProviderEnv) (cache : Option WordCache)
    (hc : CacheInv cache) :
    (getFinancialTermFromOpenAI env cache).1.word.length = 5 ∧
    CacheInv (getFinancialTermFromOpenAI env cache).2.1 := by
  cases cache with
  | none => exact fetchFreshWord_word_length env none hc
  | some c0 =>
    by_cases hd : c0.date = env.today
    · have h5 := hc c0 rfl
      simp only [getFinancialTermFromOpenAI, if_pos hd]
      exact ⟨h5, hc⟩
    · simp only [getFinancialTermFromOpenAI, if_neg hd]
      exact fetchFreshWord_word_length env (some c0) hc

/-- C9: every handler — /start, /play, /definition, /help and the guess
message — preserves the invariant: while a game is active the current word
has exactly 5 characters and fewer than 6 attempts are on record, the
attempt count never exceeds 6, and a session holding 6 attempts is forced
inactive; the auxiliary cache invariant (every cached word has 5
characters) is carried along. -/
theorem session_invariant_preserved (e : Event) (s : WordleSession)
    (cache : Option WordCache) (hs : SessionInv s) (hc : CacheInv cache) :
    SessionInv (step e (s, cache)).1 ∧ CacheInv (step e (s, cache)).2.1 := by
  obtain ⟨hword, hbound, hforce⟩ := hs
  cases e with
  | start => exact ⟨⟨hword, hbound, hforce⟩, hc⟩
  | help => exact ⟨⟨hword, hbound, hforce⟩, hc⟩
  | play d env =>
    show SessionInv (handlePlay d env s cache).1 ∧ CacheInv (handlePlay d env s cache).2.1
    by_cases hcond : s.lastGameDate = some env.today ∧ d = false
    · unfold handlePlay
      rw [if_pos hcond]
      exact ⟨⟨hword, hbound, hforce⟩, hc⟩
    · unfold handlePlay
      rw [if_neg hcond]
      refine ⟨⟨fun _ => (getFinancialTerm_word_length env cache hc).1, by simp, by simp⟩,
        (getFinancialTerm_word_length env cache hc).2⟩
  | definitionCmd env =>
    refine ⟨⟨hword, hbound, hforce⟩, ?_⟩
    show CacheInv (handleDefinition env s cache).1
    unfold handleDefinition
    by_cases h1 : s.gameActive = false
    · rw [if_pos h1]
      exact hc
    · rw [if_neg h1]
      by_cases h2 : s.attempts.length = 0
      · rw [if_pos h2]
        exact hc
      · rw [if_neg h2]
        exact (getFinancialTerm_word_length env cache hc).2
  | message text =>
    refine ⟨?_, hc⟩
    show SessionInv (handleMessage s text).1
    by_cases hact : s.gameActive = false
    · rw [handleMessage_inactive s text hact]
      exact ⟨hword, hbound, hforce⟩
    · have hactive : s.gameActive = true := by
        revert hact
        cases s.gameActive <;> simp
      by_cases hl5 : (normalizeGuess text).length = 5
      · have hlt : s.attempts.length < 6 := by
          by_cases h6 : s.attempts.length = 6
          · exact absurd (hforce h6) (by simp [hactive])
          · omega
        by_cases hwin : normalizeGuess text = s.currentWord
        · rw [handleMessage_win s text hactive hl5 hwin]
          refine ⟨by simp, ?_, by simp⟩
          simp
          omega
        · by_cases h6 : s.attempts.length + 1 ≥ 6
          · rw [handleMessage_lose s text hactive hl5 hwin h6]
            refine ⟨by simp, ?_, by simp⟩
            simp
            omega
          · rw [handleMessage_continue s text hactive hl5 hwin (by omega)]
            refine ⟨fun _ => ?_, ?_, fun hlen6 => ?_⟩
            · simpa using hword hactive
            · simp
              omega
            · exfalso
              simp at hlen6
              omega
      · rw [handleMessage_badlength s text hactive hl5]
        exact ⟨hword, hbound, hforce⟩

/-- Closed instance of `session_invariant_preserved`: a fresh session
playing for the first time with an unreachable generator. -/
theorem session_invariant_preserved_witness :
    SessionInv (step (.play false { today := "2025-01-01", apiKey := none, api := .failure })
      (initialSession, none)).1 ∧
    CacheInv (step (.play false { today := "2025-01-01", apiKey := none, api := .failure })
      (initialSession, none)).2.1 :=
  session_invariant_preserved
    (.play false { today := "2025-01-01", apiKey := none, api := .failure })
    initialSession none (by decide) (fun c hc => by cases hc)

/-- Helper: a reply starting with the attempt header text is not the
dictionary rejection (their first characters differ). -/
theorem attempt_reply_ne (r : String) : ("Attempt " ++ r) ≠ invalidWordMsg := by
  intro h
  unfold invalidWordMsg at h
  have h2 := congrArg String.data h
  simp only [String.data_append] at h2
  simp at h2

/-- Helper: the attempt header followed by a suffix is "Attempt " followed
by the rest. -/
theorem attemptHeader_append_shape (n : Nat) (g ev rest : String) :
    attemptHeader n g ev ++ rest =
      "Attempt " ++ (toString n ++ "/6:\n" ++ g ++ "\n" ++ ev ++ "\n\n" ++ rest) := by
  simp [attemptHeader, String.append_assoc]

/-- Helper: the attempt header alone is "Attempt " followed by the rest. -/
theorem attemptHeader_shape (n : Nat) (g ev : String) :
    attemptHeader n g ev =
      "Attempt " ++ (toString n ++ "/6:\n" ++ g ++ "\n" ++ ev ++ "\n\n") := by
  simp [attemptHeader, String.append_assoc]

/-- C10: the dictionary check can never reject: any guess of exactly 5
characters satisfies `isValidWord`, so in the message handler the
"Not a valid word in my dictionary" reply is unreachable. -/
theorem invalid_word_branch_unreachable :
    (∀ g : String, g.length = 5 → isValidWord g = true) ∧
    (∀ (s : WordleSession) (text : String), (handleMessage s text).2 ≠ invalidWordMsg) := by
  constructor
  · intro g hg
    simp [isValidWord, hg]
  · intro s text
    by_cases hact : s.gameActive = false
    · rw [handleMessage_inactive s text hact]
      exact (by decide : noActiveGameMsg ≠ invalidWordMsg)
    · have hactive : s.gameActive = true := by
        revert hact
        cases s.gameActive <;> simp
      by_cases hl5 : (normalizeGuess text).length = 5
      · by_cases hwin : normalizeGuess text = s.currentWord
        · rw [handleMessage_win s text hactive hl5 hwin, attemptHeader_append_shape]
          exact attempt_reply_ne _
        · by_cases h6 : s.attempts.length + 1 ≥ 6
          · rw [handleMessage_lose s text hactive hl5 hwin h6, attemptHeader_append_shape]
            exact attempt_reply_ne _
          · rw [handleMessage_continue s text hactive hl5 hwin (by omega), attemptHeader_shape]
            exact attempt_reply_ne _
      · rw [handleMessage_badlength s text hactive hl5]
        exact (by decide : enterFiveMsg ≠ invalidWordMsg)

/-- Closed instance of `invalid_word_branch_unreachable`: the 5-character
guess ASSET passes the dictionary check, and a concrete message never
draws the dictionary rejection. -/
theorem invalid_word_branch_unreachable_witness :
    isValidWord ("ASSET") = true ∧
    (handleMessage { currentWord := "ASSET", attempts := [], gameActive := true, lastGameDate := none } ("asset")).2 ≠ invalidWordMsg :=
  ⟨invalid_word_branch_unreachable.1 ("ASSET") (by decide),
   invalid_word_branch_unreachable.2
     { currentWord := "ASSET", attempts := [], gameActive := true, lastGameDate := none }
     ("asset")⟩
